import Mathlib

/-!
Verification of the task-tracking bot's persistence facade
(`database.py`): data model, CRUD operations, the overdue sweeper and
the notification dispatch queries, embedded as pure functions over an
explicit database state.

Timestamps (`datetime` values) are modelled as naturals; `NULL`-able
columns are `Option`; the status / priority / role strings are kept as
strings, exactly as the source stores them.
-/

namespace TGBot

/-- Row of the `users` table. -/
structure User where
  id : Nat
  telegram_id : Nat
  username : String
  first_name : String
  last_name : String
  role : String
  is_active : Bool
deriving Repr, DecidableEq

/-- Row of the `tasks` table. -/
structure Task where
  id : Nat
  title : String
  description : String
  creator_id : Nat
  assignee_id : Option Nat
  status : String
  priority : String
  deadline : Option Nat
  created_at : Nat
  updated_at : Nat
  completed_at : Option Nat
deriving Repr, DecidableEq

/-- Row of the `notifications` table (the `type` column is `ntype`). -/
structure Notif where
  id : Nat
  user_id : Nat
  task_id : Nat
  ntype : String
  message : String
  is_sent : Bool
  scheduled_at : Nat
  sent_at : Option Nat
  created_at : Nat
deriving Repr, DecidableEq

/-- Row of the append-only `task_history` table. -/
structure HistoryEntry where
  task_id : Nat
  user_id : Nat
  action : String
  old_value : Option String
  new_value : Option String
  created_at : Nat
deriving Repr, DecidableEq

/-- The whole database state. -/
structure DB where
  users : List User
  tasks : List Task
  notifs : List Notif
  history : List HistoryEntry
deriving Repr, DecidableEq

def dbEmpty : DB := ⟨[], [], [], []⟩

/-! ## Overdue sweeper (`update_overdue_tasks`) -/

/-- SQL `deadline < now`: false when the deadline is `NULL`. -/
def deadlinePast (t : Task) (now : Nat) : Bool :=
  match t.deadline with
  | some d => d < now
  | none => false

/-- The `WHERE` filter of `update_overdue_tasks`:
`deadline < now AND status NOT IN ('completed', 'cancelled', 'overdue')`. -/
def overdueEligible (t : Task) (now : Nat) : Bool :=
  deadlinePast t now &&
    !(t.status == "completed" || t.status == "cancelled" || t.status == "overdue")

/-- Effect of the bulk `UPDATE` on one row. -/
def sweepTask (t : Task) (now : Nat) : Task :=
  if overdueEligible t now then { t with status := "overdue", updated_at := now } else t

/-- Embeds `DatabaseManager.update_overdue_tasks`: bulk-update every eligible task to
`overdue`, stamping `updated_at`; also returns the number of affected rows. -/
def update_overdue_tasks (db : DB) (now : Nat) : DB × Nat :=
  ({ db with tasks := db.tasks.map (fun t => sweepTask t now) },
    db.tasks.countP (fun t => overdueEligible t now))

theorem overdueEligible_sweepTask (t : Task) (now : Nat) :
    overdueEligible (sweepTask t now) now = false := by
  unfold sweepTask
  by_cases h : overdueEligible t now = true
  · rw [if_pos h]
    simp [overdueEligible]
  · rw [if_neg h]
    exact Bool.eq_false_iff.mpr h

theorem sweepTask_sweepTask (t : Task) (now : Nat) :
    sweepTask (sweepTask t now) now = sweepTask t now := by
  have h := overdueEligible_sweepTask t now
  unfold sweepTask at *
  simp [h]

/-- C1: every task whose deadline has passed and whose status is neither
`completed` nor `cancelled` ends the sweep with status `overdue` (with
`updated_at` stamped when the row is actually written), and a second sweep
run immediately afterwards writes nothing and leaves the state unchanged. -/
theorem update_overdue_tasks_correct_and_idempotent
    (db : DB) (now : Nat) (t : Task)
    (hmem : t ∈ db.tasks) (hdl : deadlinePast t now = true)
    (hc : t.status ≠ "completed") (hx : t.status ≠ "cancelled") :
    (∃ t' ∈ (update_overdue_tasks db now).1.tasks,
        t'.id = t.id ∧ t'.status = "overdue" ∧
        (t.status ≠ "overdue" → t'.updated_at = now)) ∧
    update_overdue_tasks (update_overdue_tasks db now).1 now =
      ((update_overdue_tasks db now).1, 0) := by
  constructor
  · refine ⟨sweepTask t now, List.mem_map_of_mem _ hmem, ?_⟩
    by_cases hov : t.status = "overdue"
    · have he : overdueEligible t now = false := by
        simp [overdueEligible, hov]
      simp [sweepTask, he, hov]
    · have he : overdueEligible t now = true := by
        simp [overdueEligible, hdl, hc, hx, hov]
      simp [sweepTask, he]
  · have hfix : ∀ u ∈ (update_overdue_tasks db now).1.tasks,
        sweepTask u now = u := by
      intro u hu
      rcases List.mem_map.mp hu with ⟨v, _, rfl⟩
      exact sweepTask_sweepTask v now
    have hzero : ((update_overdue_tasks db now).1.tasks.countP
        (fun u => overdueEligible u now)) = 0 := by
      apply List.countP_eq_zero.mpr
      intro u hu
      rcases List.mem_map.mp hu with ⟨v, _, rfl⟩
      simp [overdueEligible_sweepTask]
    unfold update_overdue_tasks
    refine Prod.ext ?_ ?_
    · show ({ (update_overdue_tasks db now).1 with
        tasks := (update_overdue_tasks db now).1.tasks.map
          (fun u => sweepTask u now) } : DB) = _
      have : (update_overdue_tasks db now).1.tasks.map
          (fun u => sweepTask u now) = (update_overdue_tasks db now).1.tasks := by
        calc (update_overdue_tasks db now).1.tasks.map (fun u => sweepTask u now)
            = (update_overdue_tasks db now).1.tasks.map id :=
              List.map_congr_left hfix
          _ = (update_overdue_tasks db now).1.tasks := List.map_id _
      rw [this]
      rfl
    · exact hzero

def dbC1 : DB :=
  { dbEmpty with tasks :=
      [{ id := 1, title := "t", description := "", creator_id := 1,
         assignee_id := none, status := "new", priority := "medium",
         deadline := some 5, created_at := 0, updated_at := 0,
         completed_at := none }] }

/-- Witness for C1 at a concrete state: one overdue-eligible task. -/
theorem update_overdue_tasks_correct_and_idempotent_witness :
    (∃ t' ∈ (update_overdue_tasks dbC1 10).1.tasks,
        t'.id = 1 ∧ t'.status = "overdue" ∧
        ("new" ≠ "overdue" → t'.updated_at = 10)) ∧
    update_overdue_tasks (update_overdue_tasks dbC1 10).1 10 =
      ((update_overdue_tasks dbC1 10).1, 0) := by
  have h := update_overdue_tasks_correct_and_idempotent dbC1 10
    (dbC1.tasks.head (by decide)) (by decide) (by decide) (by decide) (by decide)
  exact h

/-! ## Task creation (`create_task`) -/

/-- Autoincrement id generation for the `tasks` table. -/
def nextTaskId (db : DB) : Nat :=
  db.tasks.foldr (fun t acc => max t.id acc) 0 + 1

/-- The task row `create_task` inserts (status defaults to `new`,
`completed_at` to `NULL`). -/
def newTaskRow (db : DB) (title description : String) (creator_id : Nat)
    (assignee_id : Option Nat) (priority : String) (deadline : Option Nat)
    (now : Nat) : Task :=
  { id := nextTaskId db, title := title, description := description,
    creator_id := creator_id, assignee_id := assignee_id, status := "new",
    priority := priority, deadline := deadline, created_at := now,
    updated_at := now, completed_at := none }

/-- The `created` history entry `_add_task_history` appends inside the same
transaction. -/
def createdHistoryRow (task_id creator_id : Nat) (now : Nat) : HistoryEntry :=
  { task_id := task_id, user_id := creator_id, action := "created",
    old_value := none, new_value := some "Задача создана", created_at := now }

/-- Embeds `DatabaseManager.create_task`: one transaction inserting the task row and
its `created` history entry, committed together; `failHistory` injects a
storage failure between the two inserts, in which case the transaction is
rolled back (the returned state is the input state) and the error propagates. -/
def create_task (db : DB) (failHistory : Bool) (title description : String)
    (creator_id : Nat) (assignee_id : Option Nat) (priority : String)
    (deadline : Option Nat) (now : Nat) : DB × Except String Nat :=
  let tid := nextTaskId db
  let task := newTaskRow db title description creator_id assignee_id priority deadline now
  if failHistory then
    (db, .error "storage failure during history insertion")
  else
    ({ db with
        tasks := db.tasks ++ [task],
        history := db.history ++ [createdHistoryRow tid creator_id now] },
      .ok tid)

/-- C2: `create_task` is atomic — on success exactly one task row with status
`new` and exactly one `created` history entry are added and the generated id
is returned; on a storage failure during history insertion the state is
rolled back unchanged, so no task row exists without its history entry. -/
theorem create_task_atomic (db : DB) (failHistory : Bool)
    (title description : String) (creator_id : Nat) (assignee_id : Option Nat)
    (priority : String) (deadline : Option Nat) (now : Nat) :
    (∀ tid, (create_task db failHistory title description creator_id
        assignee_id priority deadline now).2 = .ok tid →
      tid = nextTaskId db ∧
      (create_task db failHistory title description creator_id assignee_id
        priority deadline now).1.tasks =
          db.tasks ++ [newTaskRow db title description creator_id assignee_id
            priority deadline now] ∧
      (newTaskRow db title description creator_id assignee_id priority
        deadline now).status = "new" ∧
      (create_task db failHistory title description creator_id assignee_id
        priority deadline now).1.history =
          db.history ++ [createdHistoryRow tid creator_id now]) ∧
    (∀ e, (create_task db failHistory title description creator_id
        assignee_id priority deadline now).2 = .error e →
      (create_task db failHistory title description creator_id assignee_id
        priority deadline now).1 = db) := by
  unfold create_task
  by_cases hf : failHistory = true
  · simp [hf]
  · have hf' : failHistory = false := Bool.eq_false_iff.mpr hf
    simp [hf', newTaskRow]

/-- Witness for C2 at a concrete call: the success and the rollback case. -/
theorem create_task_atomic_witness :
    ((create_task dbEmpty false "a" "b" 1 none "medium" none 7).2 = .ok 1 →
      (1 : Nat) = nextTaskId dbEmpty) ∧
    ((create_task dbEmpty true "a" "b" 1 none "medium" none 7).2 =
        .error "storage failure during history insertion" →
      (create_task dbEmpty true "a" "b" 1 none "medium" none 7).1 = dbEmpty) := by
  constructor
  · intro h
    exact ((create_task_atomic dbEmpty false "a" "b" 1 none "medium" none 7).1
      1 h).1
  · intro h
    exact (create_task_atomic dbEmpty true "a" "b" 1 none "medium" none 7).2
      "storage failure during history insertion" h

/-! ## User creation (`create_user`) -/

/-- Autoincrement id generation for the `users` table. -/
def nextUserId (db : DB) : Nat :=
  db.users.foldr (fun u acc => max u.id acc) 0 + 1

/-- Outcome of `create_user`: the three `try`/`except` branches of the source
(successful commit, `IntegrityError` on the unique `telegram_id`, generic
exception). The source maps `duplicate` and `failure` both to `False`. -/
inductive CreateUserOutcome where
  | success : CreateUserOutcome
  | duplicate : CreateUserOutcome
  | failure : CreateUserOutcome
deriving Repr, DecidableEq

/-- The user row `create_user` inserts (`is_active` defaults to true). -/
def newUserRow (db : DB) (telegram_id : Nat)
    (username first_name last_name role : String) : User :=
  { id := nextUserId db, telegram_id := telegram_id, username := username,
    first_name := first_name, last_name := last_name, role := role,
    is_active := true }

/-- Embeds `DatabaseManager.create_user`: committing a row whose `telegram_id`
already exists raises `IntegrityError` (the `duplicate` branch, rolled back);
`fail` injects a generic storage failure (the `failure` branch, rolled back);
otherwise the row is inserted and committed. -/
def create_user (db : DB) (fail : Bool) (telegram_id : Nat)
    (username first_name last_name role : String) : DB × CreateUserOutcome :=
  if db.users.any (fun u => u.telegram_id == telegram_id) then
    (db, .duplicate)
  else if fail then
    (db, .failure)
  else
    ({ db with users := db.users ++ [newUserRow db telegram_id username
        first_name last_name role] },
     .success)

/-- C9: when the telegram id is already registered, `create_user` takes the
duplicate branch (distinct from the generic-failure branch) and leaves the
users table unchanged; otherwise, absent storage failure, it inserts exactly
one new user row carrying the requested role and reports success. -/
theorem create_user_duplicate_or_insert (db : DB) (telegram_id : Nat)
    (username first_name last_name role : String) :
    ((∃ u ∈ db.users, u.telegram_id = telegram_id) →
      create_user db false telegram_id username first_name last_name role =
        (db, .duplicate)) ∧
    ((∀ u ∈ db.users, u.telegram_id ≠ telegram_id) →
      (create_user db false telegram_id username first_name last_name
          role).1.users =
        db.users ++ [newUserRow db telegram_id username first_name last_name
          role] ∧
      (newUserRow db telegram_id username first_name last_name role).role =
        role ∧
      (create_user db false telegram_id username first_name last_name
          role).2 = .success) := by
  constructor
  · intro hdup
    have h : db.users.any (fun u => u.telegram_id == telegram_id) = true := by
      rcases hdup with ⟨u, hu, he⟩
      exact List.any_eq_true.mpr ⟨u, hu, by simpa using he⟩
    unfold create_user
    rw [if_pos h]
  · intro hfresh
    have h : db.users.any (fun u => u.telegram_id == telegram_id) = false := by
      apply Bool.eq_false_iff.mpr
      intro hany
      rcases List.any_eq_true.mp hany with ⟨u, hu, he⟩
      exact hfresh u hu (by simpa using he)
    unfold create_user
    rw [if_neg (by simp [h]), if_neg (by simp)]
    exact ⟨rfl, rfl, rfl⟩

def dbC9 : DB :=
  { dbEmpty with users :=
      [{ id := 1, telegram_id := 42, username := "u", first_name := "f",
         last_name := "l", role := "admin", is_active := true }] }

/-- Witness for C9: a duplicate registration is rejected in the duplicate
branch and a fresh registration inserts the row. -/
theorem create_user_duplicate_or_insert_witness :
    create_user dbC9 false 42 "v" "g" "m" "user" = (dbC9, .duplicate) ∧
    (create_user dbC9 false 43 "v" "g" "m" "user").2 = .success := by
  constructor
  · exact (create_user_duplicate_or_insert dbC9 42 "v" "g" "m" "user").1
      ⟨dbC9.users.head (by decide), by decide, by decide⟩
  · exact ((create_user_duplicate_or_insert dbC9 43 "v" "g" "m" "user").2
      (by decide)).2.2

/-! ## Status changes (`update_task_status`, `cancel_task`) -/

/-- The `status_changed` history entry. -/
def statusHistoryRow (task_id user_id : Nat) (oldSt newSt : String)
    (now : Nat) : HistoryEntry :=
  { task_id := task_id, user_id := user_id, action := "status_changed",
    old_value := some oldSt, new_value := some newSt, created_at := now }

/-- Effect of `update_task_status` on the matched row: set the status, stamp
`updated_at`, and stamp `completed_at` only when the new status is
`completed` (it is never cleared otherwise). -/
def setStatusRow (t : Task) (status : String) (now : Nat) : Task :=
  { t with
    status := status, updated_at := now,
    completed_at := if status == "completed" then some now else t.completed_at }

/-- Embeds `DatabaseManager.update_task_status`: look the task up by id; if absent
return false without changes, else set the status as in `setStatusRow`,
append one `status_changed` history entry and commit. -/
def update_task_status (db : DB) (task_id : Nat) (status : String)
    (user_id : Nat) (now : Nat) : DB × Bool :=
  match db.tasks.find? (fun t => t.id == task_id) with
  | none => (db, false)
  | some t =>
    ({ db with
        tasks := db.tasks.map (fun u =>
          if u.id == task_id then setStatusRow u status now else u),
        history := db.history ++
          [statusHistoryRow task_id user_id t.status status now] },
      true)

/-- Embeds `DatabaseManager.cancel_task`: like a status change to `cancelled`, but
`completed_at` is never touched. -/
def cancel_task (db : DB) (task_id user_id : Nat) (now : Nat) : DB × Bool :=
  match db.tasks.find? (fun t => t.id == task_id) with
  | none => (db, false)
  | some t =>
    ({ db with
        tasks := db.tasks.map (fun u =>
          if u.id == task_id then { u with status := "cancelled", updated_at := now }
          else u),
        history := db.history ++
          [statusHistoryRow task_id user_id t.status "cancelled" now] },
      true)

/-- C5: on an existing task, `update_task_status` returns true, sets the
status, appends exactly one `status_changed` history entry recording old and
new status, stamps `completed_at` exactly when the new status is `completed`,
and otherwise leaves `completed_at` at its prior value. -/
theorem update_task_status_spec (db : DB) (task_id : Nat) (status : String)
    (user_id : Nat) (now : Nat) (t : Task)
    (hfind : db.tasks.find? (fun u => u.id == task_id) = some t) :
    (update_task_status db task_id status user_id now).2 = true ∧
    (∃ t' ∈ (update_task_status db task_id status user_id now).1.tasks,
      t'.id = t.id ∧ t'.status = status ∧
      t'.completed_at =
        (if status = "completed" then some now else t.completed_at)) ∧
    (update_task_status db task_id status user_id now).1.history =
      db.history ++ [statusHistoryRow task_id user_id t.status status now] := by
  have hid : (t.id == task_id) = true := by
    have h := List.find?_some hfind
    simpa using h
  have hmem : t ∈ db.tasks := List.mem_of_find?_eq_some hfind
  unfold update_task_status
  rw [hfind]
  refine ⟨rfl, ⟨setStatusRow t status now, ?_, rfl, rfl, ?_⟩, rfl⟩
  · have harr : (fun u => if u.id == task_id then setStatusRow u status now
        else u) t = setStatusRow t status now := by
      simp [hid]
    exact harr ▸ List.mem_map_of_mem _ hmem
  · by_cases hs : status = "completed" <;> simp [setStatusRow, hs]

def dbC5 : DB :=
  { dbEmpty with tasks :=
      [{ id := 1, title := "t", description := "", creator_id := 1,
         assignee_id := none, status := "new", priority := "medium",
         deadline := none, created_at := 0, updated_at := 0,
         completed_at := none }] }

/-- Witness for C5: completing the single task of a concrete state. -/
theorem update_task_status_spec_witness :
    (update_task_status dbC5 1 "completed" 1 3).2 = true ∧
    (∃ t' ∈ (update_task_status dbC5 1 "completed" 1 3).1.tasks,
      t'.id = 1 ∧ t'.status = "completed" ∧
      t'.completed_at = (if "completed" = "completed" then some 3 else none)) ∧
    (update_task_status dbC5 1 "completed" 1 3).1.history =
      dbEmpty.history ++ [statusHistoryRow 1 1 "new" "completed" 3] := by
  exact update_task_status_spec dbC5 1 "completed" 1 3
    (dbC5.tasks.head (by decide)) (by decide)

/-! ## Sequences of facade operations and the `completed_at` invariant -/

/-- One facade operation of the claim's closure set (`create_task` on its
success path, `update_task_status`, `cancel_task`, `update_overdue_tasks`). -/
inductive Op where
  | create (title description : String) (creator_id : Nat)
      (assignee_id : Option Nat) (priority : String)
      (deadline : Option Nat) (now : Nat) : Op
  | setStatus (task_id : Nat) (status : String) (user_id : Nat)
      (now : Nat) : Op
  | cancel (task_id user_id : Nat) (now : Nat) : Op
  | sweep (now : Nat) : Op
deriving Repr, DecidableEq

def applyOp (db : DB) : Op → DB
  | .create title description creator_id assignee_id priority deadline now =>
      (create_task db false title description creator_id assignee_id priority
        deadline now).1
  | .setStatus task_id status user_id now =>
      (update_task_status db task_id status user_id now).1
  | .cancel task_id user_id now => (cancel_task db task_id user_id now).1
  | .sweep now => (update_overdue_tasks db now).1

def applyOps (db : DB) (ops : List Op) : DB := ops.foldl applyOp db

/-- The spec's data-model invariant: `completed_at` is non-null iff the
status is `completed`. -/
def completedIffStamped (db : DB) : Prop :=
  ∀ t ∈ db.tasks, (t.status = "completed" ↔ t.completed_at ≠ none)

/-- The direction of the invariant the code actually maintains. -/
def completedStamped (db : DB) : Prop :=
  ∀ t ∈ db.tasks, t.status = "completed" → t.completed_at ≠ none

instance (db : DB) : Decidable (completedIffStamped db) := by
  unfold completedIffStamped
  infer_instance

instance (db : DB) : Decidable (completedStamped db) := by
  unfold completedStamped
  infer_instance

/-- C3 counterexample: create a task, complete it, then move it back to
`in_progress`; `completed_at` stays non-null while the status is no longer
`completed`, so the biconditional invariant fails on a reachable state. -/
theorem completedIffStamped_fails_on_reachable_state :
    ¬ completedIffStamped (applyOps dbEmpty
      [ .create "t" "" 1 none "medium" none 0,
        .setStatus 1 "completed" 1 1,
        .setStatus 1 "in_progress" 1 2 ]) := by
  decide

theorem completedStamped_applyOp (db : DB) (op : Op)
    (h : completedStamped db) : completedStamped (applyOp db op) := by
  cases op with
  | create title description creator_id assignee_id priority deadline now =>
    intro t ht hc
    simp only [applyOp, create_task, Bool.false_eq_true, if_false,
      List.mem_append] at ht
    rcases ht with ht | ht
    · exact h t ht hc
    · simp only [List.mem_singleton] at ht
      subst ht
      simp [newTaskRow] at hc
  | setStatus task_id status user_id now =>
    intro t ht hc
    simp only [applyOp, update_task_status] at ht
    cases hfind : db.tasks.find? (fun u => u.id == task_id) with
    | none => rw [hfind] at ht; exact h t ht hc
    | some u =>
      rw [hfind] at ht
      simp only [List.mem_map] at ht
      rcases ht with ⟨v, hv, rfl⟩
      by_cases hvid : (v.id == task_id) = true
      · simp only [hvid, if_true] at hc ⊢
        simp only [setStatusRow] at hc ⊢
        by_cases hs : status = "completed" <;> simp_all
      · simp only [hvid] at hc ⊢
        simp only [if_false, Bool.false_eq_true] at hc ⊢
        exact h v hv hc
  | cancel task_id user_id now =>
    intro t ht hc
    simp only [applyOp, cancel_task] at ht
    cases hfind : db.tasks.find? (fun u => u.id == task_id) with
    | none => rw [hfind] at ht; exact h t ht hc
    | some u =>
      rw [hfind] at ht
      simp only [List.mem_map] at ht
      rcases ht with ⟨v, hv, rfl⟩
      by_cases hvid : (v.id == task_id) = true
      · simp only [hvid, if_true] at hc
        simp at hc
      · simp only [hvid] at hc ⊢
        simp only [if_false, Bool.false_eq_true] at hc ⊢
        exact h v hv hc
  | sweep now =>
    intro t ht hc
    simp only [applyOp, update_overdue_tasks, List.mem_map] at ht
    rcases ht with ⟨v, hv, rfl⟩
    unfold sweepTask at hc ⊢
    by_cases he : overdueEligible v now = true
    · rw [if_pos he] at hc
      simp at hc
    · rw [if_neg he] at hc ⊢
      exact h v hv hc

/-- C3 amended: along every sequence of facade operations the code preserves
only the forward direction — a `completed` task always has a non-null
`completed_at`; the converse direction is not maintained (see the
counterexample). -/
theorem completedStamped_preserved (ops : List Op) (db : DB)
    (h : completedStamped db) : completedStamped (applyOps db ops) := by
  induction ops generalizing db with
  | nil => exact h
  | cons op rest ih => exact ih (applyOp db op) (completedStamped_applyOp db op h)

/-- Witness for the amended C3 on a concrete reachable state. -/
theorem completedStamped_preserved_witness :
    completedStamped (applyOps dbEmpty
      [ .create "t" "" 1 none "medium" none 0,
        .setStatus 1 "completed" 1 1,
        .setStatus 1 "in_progress" 1 2 ]) :=
  completedStamped_preserved _ dbEmpty (by decide)

/-! ## Sparse field updates (`update_task_fields`) -/

/-- A value stored in the updates dictionary: the permitted columns are
strings (`title`, `description`, `priority`) or nullable ids / timestamps
(`assignee_id`, `deadline`). -/
inductive FieldVal where
  | vs : String → FieldVal
  | vn : Option Nat → FieldVal
deriving Repr, DecidableEq

/-- The `allowed_fields` set of `update_task_fields`. -/
def allowedFields : List String :=
  ["title", "description", "priority", "deadline", "assignee_id"]

/-- Python `str(value) if value is not None else None` as used for history rows. -/
def fieldValText : FieldVal → Option String
  | .vs x => some x
  | .vn (some m) => some (toString m)
  | .vn none => none

/-- Python `getattr(task, field)` for the permitted fields. -/
def getField (t : Task) : String → FieldVal
  | "title" => .vs t.title
  | "description" => .vs t.description
  | "priority" => .vs t.priority
  | "deadline" => .vn t.deadline
  | "assignee_id" => .vn t.assignee_id
  | _ => .vs ""

/-- Python `setattr(task, field, value)` for the permitted fields. -/
def setField (t : Task) (k : String) (v : FieldVal) : Task :=
  match k, v with
  | "title", .vs x => { t with title := x }
  | "description", .vs x => { t with description := x }
  | "priority", .vs x => { t with priority := x }
  | "deadline", .vn x => { t with deadline := x }
  | "assignee_id", .vn x => { t with assignee_id := x }
  | _, _ => t

/-- The per-field loop of `update_task_fields`: apply each change in order,
emitting one `<field>_updated` history entry capturing the old and new value
as text. -/
def applyChanges (t : Task) (user_id : Nat) (now : Nat) :
    List (String × FieldVal) → Task × List HistoryEntry
  | [] => (t, [])
  | (k, v) :: rest =>
    let entry : HistoryEntry :=
      { task_id := t.id, user_id := user_id, action := k ++ "_updated",
        old_value := fieldValText (getField t k), new_value := fieldValText v,
        created_at := now }
    let next := applyChanges (setField t k v) user_id now rest
    (next.1, entry :: next.2)

/-- Embeds `DatabaseManager.update_task_fields`: restrict the updates dictionary to
the permitted keys; with nothing left, return true before any session is
opened; otherwise look the task up (absent: false, nothing written), apply
the changes with their history entries, stamp `updated_at` and commit. -/
def update_task_fields (db : DB) (task_id : Nat)
    (updates : List (String × FieldVal)) (user_id : Nat) (now : Nat) :
    DB × Bool :=
  let changes := updates.filter (fun kv => allowedFields.contains kv.1)
  if changes.isEmpty then (db, true)
  else
    match db.tasks.find? (fun t => t.id == task_id) with
    | none => (db, false)
    | some t =>
      let res := applyChanges t user_id now changes
      ({ db with
          tasks := db.tasks.map (fun u =>
            if u.id == task_id then { res.1 with updated_at := now } else u),
          history := db.history ++ res.2 },
        true)

/-- C6 counterexample: on a state with no task 1, an update set carrying only
the non-permitted key `status` makes `update_task_fields` return true (not
false, as claimed for every update set). -/
theorem update_task_fields_missing_counterexample :
    (∀ t ∈ dbEmpty.tasks, t.id ≠ 1) ∧
    update_task_fields dbEmpty 1 [("status", .vs "completed")] 1 0 =
      (dbEmpty, true) := by
  decide

/-- C6 amended: when the update set contains at least one permitted key and
the task id is absent, `update_task_fields` returns false without raising and
leaves the state unchanged. -/
theorem update_task_fields_missing_task (db : DB) (task_id : Nat)
    (updates : List (String × FieldVal)) (user_id : Nat) (now : Nat)
    (hkeys : ∃ kv ∈ updates, allowedFields.contains kv.1 = true)
    (hfind : db.tasks.find? (fun t => t.id == task_id) = none) :
    update_task_fields db task_id updates user_id now = (db, false) := by
  unfold update_task_fields
  have hne : (updates.filter
      (fun kv => allowedFields.contains kv.1)).isEmpty = false := by
    rcases hkeys with ⟨kv, hm, hk⟩
    have hmem : kv ∈ updates.filter (fun kv => allowedFields.contains kv.1) :=
      List.mem_filter.mpr ⟨hm, hk⟩
    apply Bool.eq_false_iff.mpr
    intro he
    rw [List.isEmpty_iff.mp he] at hmem
    cases hmem
  have hcond : ¬ ((updates.filter
      (fun kv => allowedFields.contains kv.1)).isEmpty = true) := by
    rw [hne]
    exact Bool.false_ne_true
  rw [if_neg hcond, hfind]

/-- Witness for the amended C6 at a concrete state. -/
theorem update_task_fields_missing_task_witness :
    update_task_fields dbEmpty 1 [("title", .vs "x")] 1 0 =
      (dbEmpty, false) :=
  update_task_fields_missing_task dbEmpty 1 [("title", .vs "x")] 1 0
    ⟨("title", .vs "x"), by decide, by decide⟩ (by decide)

/-- C7: an updates dictionary with no permitted key makes
`update_task_fields` return true and leave every state unchanged, whether or
not the task id exists — non-permitted keys are silently discarded. -/
theorem update_task_fields_no_permitted_keys (db : DB) (task_id : Nat)
    (updates : List (String × FieldVal)) (user_id : Nat) (now : Nat)
    (hkeys : ∀ kv ∈ updates, allowedFields.contains kv.1 = false) :
    update_task_fields db task_id updates user_id now = (db, true) := by
  unfold update_task_fields
  have hnil : updates.filter (fun kv => allowedFields.contains kv.1) = [] := by
    apply List.filter_eq_nil_iff.mpr
    intro kv hm
    simpa using hkeys kv hm
  rw [hnil]
  rfl

/-- Witness for C7: a non-permitted key on a state without the task. -/
theorem update_task_fields_no_permitted_keys_witness :
    update_task_fields dbEmpty 1 [("status", .vs "overdue")] 1 0 =
      (dbEmpty, true) :=
  update_task_fields_no_permitted_keys dbEmpty 1 [("status", .vs "overdue")]
    1 0 (by decide)

/-! ## Notification dispatch queries -/

/-- The `WHERE` filter of `get_pending_notifications`:
`is_sent = false AND scheduled_at <= now`. -/
def notifDue (n : Notif) (now : Nat) : Bool :=
  !n.is_sent && n.scheduled_at ≤ now

/-- The `ORDER BY scheduled_at` relation. -/
def notifRel (a b : Notif) : Prop := a.scheduled_at ≤ b.scheduled_at

instance : DecidableRel notifRel := fun a b => Nat.decLe a.scheduled_at b.scheduled_at

instance : IsTotal Notif notifRel :=
  ⟨fun a b => Nat.le_total a.scheduled_at b.scheduled_at⟩

instance : IsTrans Notif notifRel := ⟨fun _ _ _ => Nat.le_trans⟩

/-- Embeds `DatabaseManager.get_pending_notifications`: the unsent, due
notifications ordered by `scheduled_at` ascending. -/
def get_pending_notifications (db : DB) (now : Nat) : List Notif :=
  List.insertionSort notifRel (db.notifs.filter (fun n => notifDue n now))

/-- C8: `get_pending_notifications` returns exactly the notifications with
`is_sent = false` and `scheduled_at <= now`, ordered by `scheduled_at`
ascending, on every state. -/
theorem get_pending_notifications_spec (db : DB) (now : Nat) :
    (∀ n, n ∈ get_pending_notifications db now ↔
      (n ∈ db.notifs ∧ n.is_sent = false ∧ n.scheduled_at ≤ now)) ∧
    (get_pending_notifications db now).Sorted notifRel := by
  constructor
  · intro n
    unfold get_pending_notifications
    rw [List.mem_insertionSort, List.mem_filter]
    unfold notifDue
    constructor
    · rintro ⟨hm, hd⟩
      simp only [Bool.and_eq_true, Bool.not_eq_true', decide_eq_true_eq] at hd
      exact ⟨hm, hd.1, hd.2⟩
    · rintro ⟨hm, hs, hle⟩
      refine ⟨hm, ?_⟩
      simp [hs, hle]
  · exact List.sorted_insertionSort notifRel _

/-- Embeds `DatabaseManager.mark_notification_sent`: set `is_sent` and stamp
`sent_at` on the matched row, unconditionally — there is no guard on a row
that is already sent. -/
def mark_notification_sent (db : DB) (notification_id : Nat) (now : Nat) : DB :=
  { db with notifs := db.notifs.map (fun n =>
      if n.id == notification_id then { n with is_sent := true, sent_at := some now }
      else n) }

def dbC10 : DB :=
  { dbEmpty with notifs :=
      [{ id := 1, user_id := 1, task_id := 1, ntype := "reminder",
         message := "m", is_sent := false, scheduled_at := 0,
         sent_at := none, created_at := 0 }] }

/-- C10 counterexample: marking the same notification sent a second time at a
later clock overwrites `sent_at` (from `some 5` to `some 9`), so a sent
notification is not immutable and `sent_at` is not set exactly once. -/
theorem mark_notification_sent_restamps :
    (mark_notification_sent dbC10 1 5).notifs.map (fun n => n.sent_at) =
      [some 5] ∧
    (mark_notification_sent (mark_notification_sent dbC10 1 5) 1 9).notifs.map
      (fun n => n.sent_at) = [some 9] := by
  decide

/-- C10 amended: after `mark_notification_sent` the row has `is_sent = true`
and `sent_at` stamped; a repeated call keeps `is_sent = true` and changes
nothing except re-stamping `sent_at` with the later call's clock; and no
task-side facade operation touches the notifications table. -/
theorem mark_notification_sent_amended (db : DB) (nid : Nat) (now now' : Nat)
    (n : Notif) (hmem : n ∈ db.notifs) (hid : n.id = nid) :
    ({ n with is_sent := true, sent_at := some now } ∈
      (mark_notification_sent db nid now).notifs) ∧
    ({ n with is_sent := true, sent_at := some now' } ∈
      (mark_notification_sent (mark_notification_sent db nid now) nid
        now').notifs) ∧
    (∀ tid st uid t, (update_task_status db tid st uid t).1.notifs = db.notifs) ∧
    (∀ tid uid t, (cancel_task db tid uid t).1.notifs = db.notifs) ∧
    (∀ t, (update_overdue_tasks db t).1.notifs = db.notifs) ∧
    (∀ tid ups uid t, (update_task_fields db tid ups uid t).1.notifs = db.notifs) := by
  have hbid : (n.id == nid) = true := by simp [hid]
  refine ⟨?_, ?_, ?_, ?_, ?_, ?_⟩
  · have harr : (fun m => if m.id == nid then
        ({ m with is_sent := true, sent_at := some now } : Notif) else m) n =
        { n with is_sent := true, sent_at := some now } := by
      simp [hbid]
    exact harr ▸ List.mem_map_of_mem _ hmem
  · have h1 : ({ n with is_sent := true, sent_at := some now } : Notif) ∈
        (mark_notification_sent db nid now).notifs := by
      have harr : (fun m => if m.id == nid then
          ({ m with is_sent := true, sent_at := some now } : Notif) else m) n =
          { n with is_sent := true, sent_at := some now } := by
        simp [hbid]
      exact harr ▸ List.mem_map_of_mem _ hmem
    have harr2 : (fun m => if m.id == nid then
        ({ m with is_sent := true, sent_at := some now' } : Notif) else m)
          ({ n with is_sent := true, sent_at := some now } : Notif) =
        { n with is_sent := true, sent_at := some now' } := by
      simp [hbid]
    exact harr2 ▸ List.mem_map_of_mem _ h1
  · intro tid st uid t
    unfold update_task_status
    cases hfind : db.tasks.find? (fun u => u.id == tid) <;> rfl
  · intro tid uid t
    unfold cancel_task
    cases hfind : db.tasks.find? (fun u => u.id == tid) <;> rfl
  · intro t
    rfl
  · intro tid ups uid t
    unfold update_task_fields
    dsimp only
    by_cases hch : (ups.filter (fun kv => allowedFields.contains kv.1)).isEmpty = true
    · rw [if_pos hch]
    · rw [if_neg hch]
      cases hfind : db.tasks.find? (fun u => u.id == tid)
      · rfl
      · rfl

/-- Witness for the amended C10 at a concrete state. -/
theorem mark_notification_sent_amended_witness :
    ({ (dbC10.notifs.head (by decide)) with
        is_sent := true, sent_at := some 5 } ∈
      (mark_notification_sent dbC10 1 5).notifs) ∧
    (∀ t, (update_overdue_tasks dbC10 t).1.notifs = dbC10.notifs) := by
  have h := mark_notification_sent_amended dbC10 1 5 9
    (dbC10.notifs.head (by decide)) (by decide) (by decide)
  exact ⟨h.1, h.2.2.2.2.1⟩

/-! ## Task read queries and their ordering contract -/

/-- The `ORDER BY deadline ASC NULLS LAST, created_at DESC` relation. -/
def taskLe (a b : Task) : Bool :=
  match a.deadline, b.deadline with
  | some x, some y => x < y || (x == y && decide (b.created_at ≤ a.created_at))
  | some _, none => true
  | none, some _ => false
  | none, none => decide (b.created_at ≤ a.created_at)

def taskRel (a b : Task) : Prop := taskLe a b = true

instance : DecidableRel taskRel := fun a b => instDecidableEqBool (taskLe a b) true

instance : IsTotal Task taskRel := by
  constructor
  intro a b
  unfold taskRel taskLe
  rcases ha : a.deadline with _ | x <;> rcases hb : b.deadline with _ | y <;>
    simp only [ha, hb]
  · simp
    omega
  · simp
  · simp
  · simp
    omega

instance : IsTrans Task taskRel := by
  constructor
  intro a b c hab hbc
  unfold taskRel taskLe at *
  rcases ha : a.deadline with _ | x <;> rcases hb : b.deadline with _ | y <;>
    rcases hc : c.deadline with _ | z <;>
    simp only [ha, hb, hc] at hab hbc ⊢ <;>
    simp at hab hbc ⊢ <;> omega

/-- The sort every ordered task query applies. -/
def taskSort (l : List Task) : List Task := List.insertionSort taskRel l

/-- The optional `status` filter (Python truthiness: `None` and the empty
string mean no filter). -/
def statusFilter (status : Option String) (l : List Task) : List Task :=
  match status with
  | some s => if s = "" then l else l.filter (fun t => t.status == s)
  | none => l

/-- Embeds `DatabaseManager.get_tasks_by_user`: the user's assigned tasks, optional
status filter, ordered by deadline-nulls-last then created-at-descending. -/
def get_tasks_by_user (db : DB) (user_id : Nat) (status : Option String) :
    List Task :=
  taskSort (statusFilter status
    (db.tasks.filter (fun t => t.assignee_id == some user_id)))

/-- Embeds `DatabaseManager.get_all_tasks`: optional status filter; with a
truthy `limit` the source chains `Query.limit(limit).offset(offset)` and only
then calls `order_by`, which SQLAlchemy 1.4+ rejects with
`InvalidRequestError` before any rows are fetched — the method has no except
arm, so the exception propagates. With a falsy limit the ordered rows are
returned. -/
def get_all_tasks (db : DB) (status : Option String) (limit : Option Nat)
    (offset : Nat) : Except String (List Task) :=
  let base := taskSort (statusFilter status db.tasks)
  match limit with
  | some l =>
    if l = 0 then .ok base
    else .error "InvalidRequestError: order_by on a Query with LIMIT or OFFSET applied"
  | none => .ok base

/-- Case-insensitive substring check on character lists (the `%text%` ILIKE
pattern). -/
def charsStart : List Char → List Char → Bool
  | [], _ => true
  | _ :: _, [] => false
  | a :: as, b :: bs => a == b && charsStart as bs

def charsSubstr (p : List Char) : List Char → Bool
  | [] => charsStart p []
  | b :: bs => charsStart p (b :: bs) || charsSubstr p bs

def ilikeContains (s pat : String) : Bool :=
  charsSubstr pat.toLower.data s.toLower.data

/-- Embeds `DatabaseManager.search_tasks`: text search over title/description plus
truthy status / priority / assignee / creator filters, the shared ordering,
then `LIMIT`/`OFFSET`. -/
def search_tasks (db : DB) (query_text : String) (status priority : Option String)
    (assignee_id creator_id : Option Nat) (limit offset : Nat) : List Task :=
  let q1 := if query_text = "" then db.tasks else
    db.tasks.filter (fun t =>
      ilikeContains t.title query_text || ilikeContains t.description query_text)
  let q2 := statusFilter status q1
  let q3 := match priority with
    | some p => if p = "" then q2 else q2.filter (fun t => t.priority == p)
    | none => q2
  let q4 := match assignee_id with
    | some a => if a = 0 then q3 else q3.filter (fun t => t.assignee_id == some a)
    | none => q3
  let q5 := match creator_id with
    | some c => if c = 0 then q4 else q4.filter (fun t => t.creator_id == c)
    | none => q4
  ((taskSort q5).drop offset).take limit

/-- Embeds `DatabaseManager.get_overdue_tasks`: the overdue-eligible rows — with no
`ORDER BY` clause, returned in table order. -/
def get_overdue_tasks (db : DB) (now : Nat) : List Task :=
  db.tasks.filter (fun t =>
    deadlinePast t now && !(t.status == "completed" || t.status == "cancelled"))

def dbC4 : DB :=
  { dbEmpty with tasks :=
      [{ id := 1, title := "a", description := "", creator_id := 1,
         assignee_id := none, status := "new", priority := "medium",
         deadline := some 10, created_at := 0, updated_at := 0,
         completed_at := none },
       { id := 2, title := "b", description := "", creator_id := 1,
         assignee_id := none, status := "new", priority := "medium",
         deadline := some 5, created_at := 1, updated_at := 1,
         completed_at := none }] }

/-- C4 counterexample: `get_overdue_tasks` has no ordering clause — on a
state whose table order puts a deadline-10 task before a deadline-5 task it
returns them unsorted, so not every task-list read query is sorted. -/
theorem get_overdue_tasks_not_sorted :
    ¬ (get_overdue_tasks dbC4 20).Sorted taskRel := by
  decide

/-- C4 amended: `get_tasks_by_user` and `search_tasks` always return their
results sorted by deadline ascending with nulls last and created-at
descending within equal deadlines; `get_all_tasks` returns such a sorted list
whenever it returns at all, but with a truthy limit it raises
`InvalidRequestError` before fetching any rows (order_by after
limit/offset); `get_overdue_tasks` carries no ordering clause (see the
counterexample). -/
theorem task_read_queries_sorted (db : DB) (user_id : Nat)
    (status priority : Option String) (limit : Option Nat) (offset : Nat)
    (query_text : String) (assignee_id creator_id : Option Nat)
    (lim off : Nat) :
    (get_tasks_by_user db user_id status).Sorted taskRel ∧
    (∀ ts, get_all_tasks db status limit offset = .ok ts →
      ts.Sorted taskRel) ∧
    (∀ l, l ≠ 0 → get_all_tasks db status (some l) offset =
      .error "InvalidRequestError: order_by on a Query with LIMIT or OFFSET applied") ∧
    (search_tasks db query_text status priority assignee_id creator_id
      lim off).Sorted taskRel := by
  refine ⟨List.sorted_insertionSort taskRel _, ?_, ?_, ?_⟩
  · intro ts hok
    unfold get_all_tasks at hok
    cases limit with
    | none =>
      cases hok
      exact List.sorted_insertionSort taskRel _
    | some l =>
      dsimp only at hok
      by_cases hl : l = 0
      · rw [if_pos hl] at hok
        cases hok
        exact List.sorted_insertionSort taskRel _
      · rw [if_neg hl] at hok
        cases hok
  · intro l hl
    unfold get_all_tasks
    dsimp only
    rw [if_neg hl]
  · unfold search_tasks
    exact (List.sorted_insertionSort taskRel _).sublist
      ((List.take_sublist _ _).trans (List.drop_sublist _ _))

/-- Witness for the amended C4 at a concrete state: the falsy-limit call
returns rows, the truthy-limit call raises. -/
theorem task_read_queries_sorted_witness :
    (get_tasks_by_user dbC4 1 none).Sorted taskRel ∧
    get_all_tasks dbC4 none (some 1) 0 =
      .error "InvalidRequestError: order_by on a Query with LIMIT or OFFSET applied" := by
  have h := task_read_queries_sorted dbC4 1 none none none 0 "" none none 50 0
  exact ⟨h.1, h.2.2.1 1 (by decide)⟩

end TGBot
